import Mathlib

/-!
# Verification of the aven_bot booking core

Shallow embedding of the booking/calendar core of the repository:

* `CalendarService` (frontend `src/services/CalendarService.ts`): slot
  generation, per-slot reserved/booked state, availability checks.
* `BookingService` (frontend `src/services/BookingService.ts`): contact
  validation, reservations with TTL, booking creation/cancellation.
* `validatePhone` (frontend `src/utils/validation.ts`).

JavaScript `Map`/`Set` values are modelled as association lists / lists with
the exact operational behaviour of the source (insertion order preserved,
`set` replaces in place, `delete` removes the entry).  `Date.now()` is an
explicit `now : Nat` argument (milliseconds).  `setTimeout` callbacks are
modelled as explicit events so that the timer-driven behaviour of the source
is visible in the state.
-/

/-- `s.split(sep)` on character lists (structural recursion, so it also
evaluates inside the kernel). -/
def splitOnChar (sep : Char) : List Char → List (List Char)
  | [] => [[]]
  | c :: rest =>
    match splitOnChar sep rest with
    | [] => [[]]
    | cur :: parts => if c == sep then [] :: cur :: parts else (c :: cur) :: parts

/-- Numeric value of a digit string. -/
def digitsVal (l : List Char) : Nat :=
  l.foldl (fun acc c => acc * 10 + (c.toNat - '0'.toNat)) 0

/-- JavaScript `Number(s)` restricted to the shapes exercised here: the empty
string is `0`, a digit string is its value, anything else is `NaN` (`none`). -/
def jsToNat (s : String) : Option Nat :=
  match s.toList with
  | [] => some 0
  | l => if l.all Char.isDigit then some (digitsVal l) else none

/-- Characters matched by the JavaScript regex class `\s` (ASCII part). -/
def isJsSpace (c : Char) : Bool :=
  c == ' ' || c == '\t' || c == '\n' || c == '\r' || c == '\x0b' || c == '\x0c'

/-- `String.prototype.padStart(n, '0')`. -/
def padZeros (n : Nat) (s : String) : String :=
  String.mk (List.replicate (n - s.length) '0') ++ s

/-- JS `Map.get`: value of the (unique) entry with key `k`, if any. -/
def mapGet (m : List (String × α)) (k : String) : Option α :=
  match m with
  | [] => none
  | (k', v) :: rest => if k' = k then some v else mapGet rest k

/-- JS `Map.has`. -/
def mapHas (m : List (String × α)) (k : String) : Bool :=
  (mapGet m k).isSome

/-- JS `Map.set`: replaces the entry in place if the key exists, else appends. -/
def mapSet (m : List (String × α)) (k : String) (v : α) : List (String × α) :=
  match m with
  | [] => [(k, v)]
  | (k', v') :: rest => if k' = k then (k, v) :: rest else (k', v') :: mapSet rest k v

/-- JS `Map.delete` (keys are unique, so removing every match is the same). -/
def mapDelete (m : List (String × α)) (k : String) : List (String × α) :=
  match m with
  | [] => []
  | (k', v') :: rest => if k' = k then mapDelete rest k else (k', v') :: mapDelete rest k

/-- JS `Set.has`. -/
def setHas (s : List String) (x : String) : Bool :=
  match s with
  | [] => false
  | y :: rest => if y = x then true else setHas rest x

/-- JS `Set.add`: appends unless already present. -/
def setAdd (s : List String) (x : String) : List String :=
  if setHas s x then s else s ++ [x]

/-- JS `Set.delete` (elements are unique, so removing every match is the same). -/
def setDelete (s : List String) (x : String) : List String :=
  match s with
  | [] => []
  | y :: rest => if y = x then setDelete rest x else y :: setDelete rest x

/-- `TimeSlot` from `src/types/appointment.ts`; `bookedBy?: string` becomes
`Option String`. -/
structure TimeSlot where
  id : String
  date : String
  startTime : String
  endTime : String
  isAvailable : Bool
  bookedBy : Option String
deriving Repr, DecidableEq

/-- The mutable state of `CalendarService`:
`reservedSlots : Set<string>` and `bookedSlots : Map<string, string>`. -/
structure CalendarState where
  reservedSlots : List String
  bookedSlots : List (String × String)
deriving Repr, DecidableEq

namespace CalendarService

/-- A fresh `CalendarService` instance (both collections empty). -/
def emptyCalendar : CalendarState := ⟨[], []⟩

/-- `CalendarService.isSlotAvailable`:
`!this.bookedSlots.has(slotId) && !this.reservedSlots.has(slotId)`. -/
def isSlotAvailable (s : CalendarState) (slotId : String) : Bool :=
  !(mapHas s.bookedSlots slotId) && !(setHas s.reservedSlots slotId)

/-- `CalendarService.reserveSlot(slotId, reservationTimeoutMs)`.  The source
also schedules `setTimeout(() => this.reservedSlots.delete(slotId), ms)`;
that callback is the separate event `reservationTimeoutFire` below (see also
`reserveSlotAt` for the timer-carrying model). -/
def reserveSlot (s : CalendarState) (slotId : String) : Bool × CalendarState :=
  if mapHas s.bookedSlots slotId || setHas s.reservedSlots slotId then
    (false, s)
  else
    (true, { s with reservedSlots := setAdd s.reservedSlots slotId })

/-- Body of the `setTimeout` callback scheduled by `reserveSlot`:
`this.reservedSlots.delete(slotId)`. -/
def reservationTimeoutFire (s : CalendarState) (slotId : String) : CalendarState :=
  { s with reservedSlots := setDelete s.reservedSlots slotId }

/-- `CalendarService.bookSlot(slotId, userId)`. -/
def bookSlot (s : CalendarState) (slotId userId : String) : Bool × CalendarState :=
  if mapHas s.bookedSlots slotId then
    (false, s)
  else
    (true, { reservedSlots := setDelete s.reservedSlots slotId,
             bookedSlots := mapSet s.bookedSlots slotId userId })

/-- `CalendarService.cancelBooking(slotId, userId)`: `bookedSlots.get(slotId)`
is compared with `!==` against `userId`, so a missing entry also fails. -/
def cancelBooking (s : CalendarState) (slotId userId : String) : Bool × CalendarState :=
  let bookedBy := mapGet s.bookedSlots slotId
  if bookedBy ≠ some userId then
    (false, s)
  else
    (true, { s with bookedSlots := mapDelete s.bookedSlots slotId })

/-- `CalendarService.clearReservations`. -/
def clearReservations (s : CalendarState) : CalendarState :=
  { s with reservedSlots := [] }

/-- `CalendarService.clearBookings`. -/
def clearBookings (s : CalendarState) : CalendarState :=
  { s with bookedSlots := [] }

end CalendarService

/-- The five public state-mutating `CalendarService` operations (return values
discarded), used to express reachability of calendar states. -/
inductive CalOp where
  | reserve (slotId : String)
  | book (slotId userId : String)
  | cancel (slotId userId : String)
  | clearReservations
  | clearBookings
deriving Repr, DecidableEq

/-- Effect of one operation on the calendar state. -/
def applyCalOp (s : CalendarState) : CalOp → CalendarState
  | .reserve slotId => (CalendarService.reserveSlot s slotId).2
  | .book slotId userId => (CalendarService.bookSlot s slotId userId).2
  | .cancel slotId userId => (CalendarService.cancelBooking s slotId userId).2
  | .clearReservations => CalendarService.clearReservations s
  | .clearBookings => CalendarService.clearBookings s

/-- State reached from the empty calendar by a sequence of operations. -/
def runCalOps (ops : List CalOp) : CalendarState :=
  ops.foldl applyCalOp CalendarService.emptyCalendar

namespace CalendarService

/-- `CalendarService.minutesToTimeString(minutes)`:
`HH:MM` with `padStart(2, '0')` on hours and minutes. -/
def minutesToTimeString (minutes : Nat) : String :=
  let hours := minutes / 60
  let mins := minutes % 60
  padZeros 2 (toString hours) ++ ":" ++ padZeros 2 (toString mins)

/-- `time.split(':').map(Number)` destructured into `[hours, minutes]`.
`none` is JavaScript `NaN` in either component (a missing `:` leaves the
minutes component `undefined`, hence `NaN`); any `NaN` makes every comparison
in the slot loop false, so the callers produce no slots. -/
def parseClock (t : String) : Option (Nat × Nat) :=
  match (splitOnChar ':' t.toList).map String.mk with
  | h :: m :: _ =>
    match jsToNat h, jsToNat m with
    | some hh, some mm => some (hh, mm)
    | _, _ => none
  | _ => none

/-- One slot pushed by the loop body of `generateDailySlots`. -/
def slotForMinutes (s : CalendarState) (date : String) (minutes interval : Nat) : TimeSlot :=
  let slotStartTime := minutesToTimeString minutes
  let slotEndTime := minutesToTimeString (minutes + interval)
  let slotId := date ++ "_" ++ slotStartTime
  { id := slotId
    date := date
    startTime := slotStartTime
    endTime := slotEndTime
    isAvailable := !(mapHas s.bookedSlots slotId) && !(setHas s.reservedSlots slotId)
    bookedBy := mapGet s.bookedSlots slotId }

/-- The loop
`for (let minutes = startMinutes; minutes < endMinutes; minutes += intervalMinutes)`.
`fuel` is an upper bound on the iteration count used only to make the
recursion structural: the top-level call passes
`fuel = endMinutes - startMinutes`, and with `interval ≥ 1` the loop performs
at most that many iterations, with `minutes ≥ endMinutes` holding whenever
`fuel` runs out — so the `0` case coincides with the loop guard failing.
`interval = 0` (on which the source loop would never terminate) yields `[]`. -/
def dailyLoop (s : CalendarState) (date : String) (endMinutes interval : Nat) :
    Nat → Nat → List TimeSlot
  | 0, _ => []
  | fuel + 1, minutes =>
    if minutes < endMinutes then
      if interval == 0 then []
      else slotForMinutes s date minutes interval ::
           dailyLoop s date endMinutes interval fuel (minutes + interval)
    else []

/-- `CalendarService.generateDailySlots(date, startTime, endTime, intervalMinutes)`. -/
def generateDailySlots (s : CalendarState) (date startTime endTime : String)
    (intervalMinutes : Nat) : List TimeSlot :=
  match parseClock startTime, parseClock endTime with
  | some (startHour, startMinute), some (endHour, endMinute) =>
    let startMinutes := startHour * 60 + startMinute
    let endMinutes := endHour * 60 + endMinute
    dailyLoop s date endMinutes intervalMinutes (endMinutes - startMinutes) startMinutes
  | _, _ => []

/-- Gregorian leap year. -/
def isLeapYear (y : Nat) : Bool :=
  (y % 4 == 0 && y % 100 != 0) || y % 400 == 0

/-- Days in a month of the Gregorian calendar. -/
def daysInMonth (y m : Nat) : Nat :=
  if m == 2 then (if isLeapYear y then 29 else 28)
  else if m == 4 || m == 6 || m == 9 || m == 11 then 30
  else 31

/-- Days from 0001-01-01 (exclusive) to `y`-01-01: the rata-die day number of
`y`-01-01 minus one. -/
def daysBeforeYear (y : Nat) : Nat :=
  let n := y - 1
  n * 365 + n / 4 - n / 100 + n / 400

/-- Days from `y`-01-01 to `y`-`m`-01. -/
def daysBeforeMonth (y m : Nat) : Nat :=
  (List.range (m - 1)).foldl (fun acc i => acc + daysInMonth y (i + 1)) 0

/-- Rata-die day number of a `(year, month, day)` date (0001-01-01 ↦ 1);
this is an order-isomorphic stand-in for the millisecond timestamp the
source compares with `date <= end`. -/
def rataDie (d : Nat × Nat × Nat) : Nat :=
  daysBeforeYear d.1 + daysBeforeMonth d.1 d.2.1 + d.2.2

/-- `Date.prototype.getDay` (0 = Sunday … 6 = Saturday): 0001-01-01 was a
Monday, so the weekday is the rata-die number mod 7. -/
def dayOfWeek (d : Nat × Nat × Nat) : Nat :=
  rataDie d % 7

/-- `date.setDate(date.getDate() + 1)`: advance one calendar day. -/
def nextDay : Nat × Nat × Nat → Nat × Nat × Nat
  | (y, m, d) =>
    if d < daysInMonth y m then (y, m, d + 1)
    else if m < 12 then (y, m + 1, 1)
    else (y + 1, 1, 1)

/-- `date.toISOString().split('T')[0]`: `YYYY-MM-DD` with zero padding. -/
def formatDate (d : Nat × Nat × Nat) : String :=
  padZeros 4 (toString d.1) ++ "-" ++ padZeros 2 (toString d.2.1) ++ "-" ++
    padZeros 2 (toString d.2.2)

/-- `new Date("YYYY-MM-DD")` for the ISO calendar-date grammar: split on `-`,
numeric components, month and day in range; anything else is an Invalid Date
(`none`), on which the source's day loop never runs. -/
def parseDate (s : String) : Option (Nat × Nat × Nat) :=
  match (splitOnChar '-' s.toList).map String.mk with
  | [y, m, d] =>
    match jsToNat y, jsToNat m, jsToNat d with
    | some yy, some mm, some dd =>
      if 1 ≤ mm && mm ≤ 12 && 1 ≤ dd && dd ≤ daysInMonth yy mm then some (yy, mm, dd)
      else none
    | _, _, _ => none
  | _ => none

/-- The loop `for (let date = start; date <= end; date.setDate(getDate()+1))`
of `generateTimeSlots`, unrolled over its iteration count `n`
(`n = rataDie end + 1 - rataDie start`, and each iteration advances exactly
one calendar day, so the timestamp guard `date <= end` holds during exactly
the first `n` iterations).  Sunday (0) and Saturday (6) are skipped. -/
def dayLoop (s : CalendarState) (startTime endTime : String) (interval : Nat) :
    Nat → Nat × Nat × Nat → List TimeSlot
  | 0, _ => []
  | n + 1, cur =>
    let rest := dayLoop s startTime endTime interval n (nextDay cur)
    if dayOfWeek cur == 0 || dayOfWeek cur == 6 then rest
    else generateDailySlots s (formatDate cur) startTime endTime interval ++ rest

/-- `CalendarService.generateTimeSlots(startDate, endDate, startTime, endTime,
intervalMinutes)`. -/
def generateTimeSlots (s : CalendarState) (startDate endDate startTime endTime : String)
    (intervalMinutes : Nat) : List TimeSlot :=
  match parseDate startDate, parseDate endDate with
  | some start, some stop =>
    if rataDie start ≤ rataDie stop then
      dayLoop s startTime endTime intervalMinutes (rataDie stop + 1 - rataDie start) start
    else []
  | _, _ => []

/-- `CalendarService.getSlotById(slotId)`: splits the id on `_`, rejects a
missing or empty date/startTime part, and rebuilds the slot assuming a
30-minute duration.  A non-numeric startTime propagates `NaN` through the
end-time arithmetic, which `minutesToTimeString` renders as `"NaN:NaN"`. -/
def getSlotById (s : CalendarState) (slotId : String) : Option TimeSlot :=
  match splitOnChar '_' slotId.toList with
  | dateL :: startTimeL :: _ =>
    if dateL.isEmpty || startTimeL.isEmpty then none
    else
      let hm : Option Nat × Option Nat :=
        match splitOnChar ':' startTimeL with
        | h :: m :: _ => (jsToNat (String.mk h), jsToNat (String.mk m))
        | [h] => (jsToNat (String.mk h), none)
        | [] => (none, none)
      let endMinutes : Option Nat :=
        match hm with
        | (some hours, some mins) => some (hours * 60 + mins + 30)
        | _ => none
      some { id := slotId
             date := String.mk dateL
             startTime := String.mk startTimeL
             endTime := match endMinutes with
                        | some e => minutesToTimeString e
                        | none => "NaN:NaN"
             isAvailable := isSlotAvailable s slotId
             bookedBy := mapGet s.bookedSlots slotId }
  | _ => none

end CalendarService

/-- `CalendarService` state together with the `setTimeout` callbacks that
`reserveSlot` has scheduled but the event loop has not yet executed:
`(slotId, fireAt)` pairs. -/
structure TimedCalendar where
  cal : CalendarState
  pendingTimeouts : List (String × Nat)
deriving Repr, DecidableEq

namespace CalendarService

/-- `reserveSlot(slotId, ttl)` called at clock time `now`: on success the
source schedules a deletion callback for time `now + ttl`. -/
def reserveSlotAt (c : TimedCalendar) (slotId : String) (now ttl : Nat) :
    Bool × TimedCalendar :=
  let (ok, cal') := reserveSlot c.cal slotId
  if ok then (true, ⟨cal', c.pendingTimeouts ++ [(slotId, now + ttl)]⟩)
  else (false, c)

/-- The event loop running every scheduled callback due at or before time `t`
(each callback is `this.reservedSlots.delete(slotId)`). -/
def runTimeoutsThrough (c : TimedCalendar) (t : Nat) : TimedCalendar :=
  ⟨(c.pendingTimeouts.filter (fun p => p.2 ≤ t)).foldl
      (fun cal p => reservationTimeoutFire cal p.1) c.cal,
   c.pendingTimeouts.filter (fun p => t < p.2)⟩

end CalendarService

/-- `BookingStatus` from `src/types/appointment.ts`. -/
inductive BookingStatus where
  | confirmed
  | cancelled
  | pending
deriving Repr, DecidableEq

/-- `ValidationErrorType` from `src/types/appointment.ts`. -/
inductive ValidationErrorType where
  | REQUIRED_FIELD
  | INVALID_EMAIL
  | INVALID_PHONE
  | INVALID_NAME
  | SLOT_UNAVAILABLE
  | BOOKING_CONFLICT
deriving Repr, DecidableEq

/-- `ContactInfo` from `src/types/appointment.ts`. -/
structure ContactInfo where
  name : String
  phone : String
  email : String
deriving Repr, DecidableEq

/-- `ValidationError` from `src/types/appointment.ts`. -/
structure ValidationError where
  field : String
  type : ValidationErrorType
  message : String
deriving Repr, DecidableEq

/-- `ValidationResult` from `src/types/appointment.ts`. -/
structure ValidationResult where
  isValid : Bool
  errors : List ValidationError
deriving Repr, DecidableEq

/-- `Booking` from `src/types/appointment.ts` (`createdAt` is an opaque
timestamp string here). -/
structure Booking where
  id : String
  contactInfo : ContactInfo
  timeSlot : TimeSlot
  status : BookingStatus
  createdAt : String
  confirmationId : String
deriving Repr, DecidableEq

/-- `BookingConfirmation` from `src/types/appointment.ts`. -/
structure BookingConfirmation where
  name : String
  phone : String
  email : String
  selectedSlot : TimeSlot
  confirmationId : String
deriving Repr, DecidableEq

/-- An entry of `BookingService.reservations : Map<string, {userId, expiresAt}>`. -/
structure Reservation where
  userId : String
  expiresAt : Nat
deriving Repr, DecidableEq

/-- The mutable state of `BookingService` together with the `CalendarService`
instance it delegates to. -/
structure BookingState where
  calendar : CalendarState
  bookings : List (String × Booking)
  reservations : List (String × Reservation)
deriving Repr, DecidableEq

/-- Result of `BookingService.createBooking`
(`{success: true, data}` / `{success: false, error}`). -/
inductive CreateBookingResult where
  | ok (data : BookingConfirmation)
  | err (error : String)
deriving Repr, DecidableEq

namespace BookingService

/-- `RESERVATION_TIMEOUT = 5 * 60 * 1000`. -/
def RESERVATION_TIMEOUT : Nat := 5 * 60 * 1000

/-- A fresh `BookingService` with a fresh `CalendarService` and no persisted
snapshot. -/
def emptyState : BookingState := ⟨CalendarService.emptyCalendar, [], []⟩

/-- Characters removed by `sanitizeString`: the class ``[<>\"'&]``. -/
def dangerousChar (c : Char) : Bool :=
  c == '<' || c == '>' || c == '\x22' || c == '\x27' || c == '&'

/-- JS `String.prototype.trim` on a character list. -/
def trimChars (l : List Char) : List Char :=
  ((l.dropWhile Char.isWhitespace).reverse.dropWhile Char.isWhitespace).reverse

/-- `BookingService.sanitizeString`: trim, strip dangerous characters,
truncate to 255 characters (empty input included: `'' → ''`). -/
def sanitizeString (input : String) : String :=
  String.mk (((trimChars input.toList).filter (fun c => !dangerousChar c)).take 255)

/-- ASCII lower-casing, as `toLowerCase` acts on the inputs here. -/
def jsToLower (c : Char) : Char :=
  if 'A' ≤ c && c ≤ 'Z' then Char.ofNat (c.toNat + 32) else c

/-- `BookingService.sanitizeContactInfo`. -/
def sanitizeContactInfo (c : ContactInfo) : ContactInfo :=
  { name := sanitizeString c.name
    email := String.mk ((sanitizeString c.email).toList.map jsToLower)
    phone := sanitizeString c.phone }

/-- A character matched by `[^\s@]`. -/
def emailAtomChar (c : Char) : Bool :=
  !isJsSpace c && c != '@'

/-- Whether a character list contains `'.'` at an interior position, i.e.
matches `[^\s@]+\.[^\s@]+` once all characters are already known to be
`[^\s@]`. -/
def hasInteriorDot (l : List Char) : Bool :=
  (List.range l.length).any fun i =>
    l.getD i '@' == '.' && i != 0 && (i + 1) != l.length

/-- The test of `emailRegex = /^[^\s@]+@[^\s@]+\.[^\s@]+$/`: exactly one `@`,
a nonempty local part, and a domain with an interior dot, no whitespace
anywhere. -/
def emailRegexTest (s : String) : Bool :=
  match splitOnChar '@' s.toList with
  | [locPart, domPart] =>
    !locPart.isEmpty && locPart.all emailAtomChar &&
    !domPart.isEmpty && domPart.all emailAtomChar &&
    hasInteriorDot domPart
  | _ => false

/-- The test of `phoneRegex = /^[\+]?[1-9][\d]{0,15}$/`: an optional leading
`+`, then a nonzero digit, then at most 15 digits. -/
def bsPhoneRegexTest (s : String) : Bool :=
  let l := match s.toList with
           | '+' :: rest => rest
           | l => l
  match l with
  | [] => false
  | c :: rest =>
    decide ('1' ≤ c) && decide (c ≤ '9') && decide (rest.length ≤ 15) &&
      rest.all Char.isDigit

/-- `sanitizedPhone.replace(/[\s\-\(\)]/g, '')`. -/
def stripPhoneSeparators (s : String) : String :=
  String.mk (s.toList.filter fun c => !(isJsSpace c || c == '-' || c == '(' || c == ')'))

/-- `BookingService.validateContactInfo`: the three field checks run
unconditionally and push their errors in name, email, phone order. -/
def validateContactInfo (contactInfo : ContactInfo) : ValidationResult :=
  let nameErrors : List ValidationError :=
    let sanitizedName := sanitizeString contactInfo.name
    if sanitizedName.isEmpty || sanitizedName.length < 2 then
      [⟨"name", .REQUIRED_FIELD, "Name must be at least 2 characters long"⟩]
    else []
  let emailErrors : List ValidationError :=
    let sanitizedEmail := sanitizeString contactInfo.email
    if sanitizedEmail.isEmpty || !emailRegexTest sanitizedEmail then
      [⟨"email", .INVALID_EMAIL, "Please enter a valid email address"⟩]
    else []
  let phoneErrors : List ValidationError :=
    let sanitizedPhone := sanitizeString contactInfo.phone
    let cleanPhone := stripPhoneSeparators sanitizedPhone
    if sanitizedPhone.isEmpty || !bsPhoneRegexTest cleanPhone then
      [⟨"phone", .INVALID_PHONE, "Please enter a valid phone number"⟩]
    else []
  let errors := nameErrors ++ emailErrors ++ phoneErrors
  { isValid := errors.isEmpty, errors := errors }

/-- Steps 4–9 of `createBooking` (after validation and the reservation
check): book the slot in the calendar, store the booking, drop the
reservation, and build the confirmation.  The fresh identifiers and the
`createdAt` timestamp are inputs here because the source draws them from
`Date.now()`/`Math.random()`. -/
def createBookingCommit (st : BookingState) (contactInfo : ContactInfo)
    (timeSlot : TimeSlot) (userId newBookingId newConfirmationId createdAt : String) :
    CreateBookingResult × BookingState :=
  let (bookingSuccess, calendar') := CalendarService.bookSlot st.calendar timeSlot.id userId
  if !bookingSuccess then
    (.err "Failed to book time slot - conflict detected", { st with calendar := calendar' })
  else
    let booking : Booking :=
      { id := newBookingId
        contactInfo := sanitizeContactInfo contactInfo
        timeSlot := { timeSlot with isAvailable := false, bookedBy := some userId }
        status := .confirmed
        createdAt := createdAt
        confirmationId := newConfirmationId }
    let st' : BookingState :=
      { calendar := calendar'
        bookings := mapSet st.bookings booking.id booking
        reservations := mapDelete st.reservations timeSlot.id }
    (.ok { name := booking.contactInfo.name
           phone := booking.contactInfo.phone
           email := booking.contactInfo.email
           selectedSlot := booking.timeSlot
           confirmationId := booking.confirmationId }, st')

/-- `BookingService.createBooking(contactInfo, timeSlot, userId)`. -/
def createBooking (st : BookingState) (contactInfo : ContactInfo) (timeSlot : TimeSlot)
    (userId newBookingId newConfirmationId createdAt : String) :
    CreateBookingResult × BookingState :=
  let validationResult := validateContactInfo contactInfo
  if !validationResult.isValid then
    (.err ("Validation failed: " ++
        String.intercalate ", " (validationResult.errors.map (·.message))), st)
  else if !CalendarService.isSlotAvailable st.calendar timeSlot.id then
    (.err "Selected time slot is no longer available", st)
  else
    match mapGet st.reservations timeSlot.id with
    | some reservation =>
      if reservation.userId ≠ userId then
        (.err "Time slot is reserved by another user", st)
      else
        createBookingCommit st contactInfo timeSlot userId newBookingId newConfirmationId createdAt
    | none =>
      createBookingCommit st contactInfo timeSlot userId newBookingId newConfirmationId createdAt

/-- `BookingService.reserveSlot(slotId, userId)` at clock time `now` (both
`Date.now()` reads of the source observe the same `now`). -/
def reserveSlot (st : BookingState) (slotId userId : String) (now : Nat) :
    Bool × BookingState :=
  if !CalendarService.isSlotAvailable st.calendar slotId then
    (false, st)
  else
    let blockedByOther : Bool :=
      match mapGet st.reservations slotId with
      | some existingReservation =>
        existingReservation.userId != userId && decide (now < existingReservation.expiresAt)
      | none => false
    if blockedByOther then
      (false, st)
    else
      let (calendarReserved, calendar') := CalendarService.reserveSlot st.calendar slotId
      if !calendarReserved then
        (false, { st with calendar := calendar' })
      else
        (true, { st with
                  calendar := calendar'
                  reservations := mapSet st.reservations slotId
                    ⟨userId, now + RESERVATION_TIMEOUT⟩ })

/-- `BookingService.releaseReservation(slotId, userId)`: deletes only the
entry of `this.reservations`; the calendar's `reservedSlots` is not touched. -/
def releaseReservation (st : BookingState) (slotId userId : String) :
    Bool × BookingState :=
  match mapGet st.reservations slotId with
  | none => (false, st)
  | some reservation =>
    if reservation.userId ≠ userId then (false, st)
    else (true, { st with reservations := mapDelete st.reservations slotId })

/-- `BookingService.cancelBooking(bookingId, userId)`: the ownership check is
against the retained `booking.timeSlot.bookedBy`; the return value of the
calendar-level cancel is discarded. -/
def cancelBooking (st : BookingState) (bookingId userId : String) :
    Bool × BookingState :=
  match mapGet st.bookings bookingId with
  | none => (false, st)
  | some booking =>
    if booking.timeSlot.bookedBy ≠ some userId then (false, st)
    else
      let booking' := { booking with status := BookingStatus.cancelled }
      let (_, calendar') := CalendarService.cancelBooking st.calendar booking.timeSlot.id userId
      (true, { st with
                bookings := mapSet st.bookings bookingId booking'
                calendar := calendar' })

/-- `BookingService.getBooking(bookingId)`. -/
def getBooking (st : BookingState) (bookingId : String) : Option Booking :=
  mapGet st.bookings bookingId

end BookingService

namespace Validation

/-- One alternative step of a regex `X?` element: consume a matching head
character or consume nothing. -/
def optChar (p : Char → Bool) (l : List Char) : List (List Char) :=
  match l with
  | c :: rest => if p c then [rest, l] else [l]
  | [] => [l]

/-- Consume exactly `n` digits. -/
def nDigits : Nat → List Char → Option (List Char)
  | 0, l => some l
  | _ + 1, [] => none
  | n + 1, c :: rest => if c.isDigit then nDigits n rest else none

/-- A separator of `PHONE_REGEX`: the class `[\-\.\s]`. -/
def phoneSep (c : Char) : Bool :=
  c == '-' || c == '.' || isJsSpace c

/-- The test of
`PHONE_REGEX = /^[\+]?[1-9]?[\-\.\s]?\(?[0-9]{3}\)?[\-\.\s]?[0-9]{3}[\-\.\s]?[0-9]{4}$/`
(`src/utils/validation.ts`), as existence of a decomposition along the
pattern. -/
def phoneRegexTest (s : String) : Bool :=
  (optChar (· == '+') s.toList).any fun l1 =>
  (optChar (fun c => decide ('1' ≤ c) && decide (c ≤ '9')) l1).any fun l2 =>
  (optChar phoneSep l2).any fun l3 =>
  (optChar (· == '(') l3).any fun l4 =>
  match nDigits 3 l4 with
  | none => false
  | some l5 =>
    (optChar (· == ')') l5).any fun l6 =>
    (optChar phoneSep l6).any fun l7 =>
    match nDigits 3 l7 with
    | none => false
    | some l8 =>
      (optChar phoneSep l8).any fun l9 =>
      match nDigits 4 l9 with
      | some [] => true
      | _ => false

/-- `validatePhone` from `src/utils/validation.ts`. -/
def validatePhone (phone : String) : Option ValidationError :=
  let trimmedPhone := String.mk (BookingService.trimChars phone.toList)
  if trimmedPhone.isEmpty then
    some ⟨"phone", .REQUIRED_FIELD, "Phone number is required"⟩
  else if !phoneRegexTest trimmedPhone then
    some ⟨"phone", .INVALID_PHONE, "Please enter a valid phone number (e.g., (123) 456-7890)"⟩
  else
    let digitsOnly := String.mk (trimmedPhone.toList.filter Char.isDigit)
    if digitsOnly.length < 10 then
      some ⟨"phone", .INVALID_PHONE, "Phone number must be at least 10 digits"⟩
    else if digitsOnly.length > 15 then
      some ⟨"phone", .INVALID_PHONE, "Phone number must be less than 15 digits"⟩
    else none

end Validation

/-- A slot value as the UI hands it to `createBooking`. -/
def demoSlot : TimeSlot :=
  ⟨"2024-01-16_09:00", "2024-01-16", "09:00", "09:30", true, none⟩

/-- A contact record passing validation (the one the repository's own tests
use). -/
def validContact : ContactInfo :=
  ⟨"John Doe", "1234567890", "john@example.com"⟩


theorem setHas_iff (s : List String) (x : String) : setHas s x = true ↔ x ∈ s := by
  induction s with
  | nil => simp [setHas]
  | cons y rest ih =>
    by_cases h : y = x
    · subst h; simp [setHas]
    · simp only [setHas, if_neg h, ih, List.mem_cons]
      constructor
      · exact Or.inr
      · rintro (rfl | hx)
        · exact absurd rfl h
        · exact hx

theorem mem_setDelete (s : List String) (x y : String) :
    y ∈ setDelete s x ↔ y ∈ s ∧ y ≠ x := by
  induction s with
  | nil => simp [setDelete]
  | cons z rest ih =>
    by_cases h : z = x
    · subst h; simp only [setDelete, if_pos rfl, ih, List.mem_cons]
      tauto
    · simp only [setDelete, if_neg h, List.mem_cons, ih]
      constructor
      · rintro (rfl | ⟨hy, hx⟩)
        · exact ⟨Or.inl rfl, fun hyx => h hyx⟩
        · exact ⟨Or.inr hy, hx⟩
      · rintro ⟨rfl | hy, hx⟩
        · exact Or.inl rfl
        · exact Or.inr ⟨hy, hx⟩

theorem mem_setAdd (s : List String) (x y : String) :
    y ∈ setAdd s x ↔ y ∈ s ∨ y = x := by
  unfold setAdd
  by_cases hs : setHas s x = true
  · rw [if_pos hs]
    constructor
    · exact Or.inl
    · rintro (hy | rfl)
      · exact hy
      · exact (setHas_iff s y).1 hs
  · rw [if_neg hs]
    simp [List.mem_append]

theorem mapGet_mapSet_self (m : List (String × α)) (k : String) (v : α) :
    mapGet (mapSet m k v) k = some v := by
  induction m with
  | nil => simp [mapSet, mapGet]
  | cons p rest ih =>
    obtain ⟨k', v'⟩ := p
    by_cases h : k' = k
    · simp [mapSet, h, mapGet]
    · simp [mapSet, h, mapGet, ih]

theorem mapGet_mapSet_ne (m : List (String × α)) (k y : String) (v : α) (h : y ≠ k) :
    mapGet (mapSet m k v) y = mapGet m y := by
  induction m with
  | nil => simp [mapSet, mapGet, Ne.symm h]
  | cons p rest ih =>
    obtain ⟨k', v'⟩ := p
    by_cases h1 : k' = k
    · subst h1
      simp [mapSet, mapGet, Ne.symm h]
    · simp [mapSet, h1, mapGet, ih]

theorem mapHas_mapSet (m : List (String × α)) (k y : String) (v : α) :
    mapHas (mapSet m k v) y = true ↔ y = k ∨ mapHas m y = true := by
  by_cases h : y = k
  · subst h
    simp [mapHas, mapGet_mapSet_self]
  · simp [mapHas, mapGet_mapSet_ne m k y v h, h]

theorem mapGet_mapDelete (m : List (String × α)) (k y : String) :
    mapGet (mapDelete m k) y = if y = k then none else mapGet m y := by
  induction m with
  | nil => simp [mapDelete, mapGet]
  | cons p rest ih =>
    obtain ⟨k', v'⟩ := p
    by_cases h1 : k' = k
    · subst h1
      have step : mapDelete ((k', v') :: rest) k' = mapDelete rest k' := by
        simp [mapDelete]
      rw [step, ih]
      by_cases h2 : y = k'
      · simp [h2]
      · have h4 : ¬ k' = y := fun hk => h2 hk.symm
        simp [h2, mapGet, h4]
    · have step : mapDelete ((k', v') :: rest) k = (k', v') :: mapDelete rest k := by
        simp [mapDelete, h1]
      rw [step]
      by_cases h2 : k' = y
      · subst h2
        simp [mapGet, h1]
      · simp [mapGet, h2, ih]

theorem mapHas_mapDelete_imp (m : List (String × α)) (k y : String)
    (h : mapHas (mapDelete m k) y = true) : mapHas m y = true := by
  unfold mapHas at h ⊢
  rw [mapGet_mapDelete] at h
  split_ifs at h with h1
  · simp at h
  · exact h

/-- Mutual exclusion: no slot id is in the reserved set and the booked map at
once. -/
def MutexInv (s : CalendarState) : Prop :=
  ∀ slotId, setHas s.reservedSlots slotId = true → mapHas s.bookedSlots slotId = false

theorem mutexInv_applyCalOp (s : CalendarState) (hInv : MutexInv s) (op : CalOp) :
    MutexInv (applyCalOp s op) := by
  cases op with
  | reserve slotId =>
    intro sid hres
    simp only [applyCalOp, CalendarService.reserveSlot] at hres ⊢
    by_cases hg : (mapHas s.bookedSlots slotId || setHas s.reservedSlots slotId) = true
    · rw [if_pos hg] at hres ⊢
      exact hInv sid hres
    · rw [if_neg hg] at hres ⊢
      rcases (mem_setAdd _ _ _).1 ((setHas_iff _ _).1 hres) with hmem | rfl
      · exact hInv sid ((setHas_iff _ _).2 hmem)
      · simp only [Bool.or_eq_true, not_or, Bool.not_eq_true] at hg
        exact hg.1
  | book slotId userId =>
    intro sid hres
    simp only [applyCalOp, CalendarService.bookSlot] at hres ⊢
    by_cases hg : mapHas s.bookedSlots slotId = true
    · rw [if_pos hg] at hres ⊢
      exact hInv sid hres
    · rw [if_neg hg] at hres ⊢
      have hmem := (mem_setDelete _ _ _).1 ((setHas_iff _ _).1 hres)
      have hbase : mapHas s.bookedSlots sid = false :=
        hInv sid ((setHas_iff _ _).2 hmem.1)
      cases hb : mapHas (mapSet s.bookedSlots slotId userId) sid with
      | false => rfl
      | true =>
        rcases (mapHas_mapSet _ _ _ _).1 hb with rfl | hold
        · exact absurd rfl hmem.2
        · rw [hbase] at hold; exact absurd hold (by simp)
  | cancel slotId userId =>
    intro sid hres
    simp only [applyCalOp, CalendarService.cancelBooking] at hres ⊢
    split_ifs at hres ⊢ with h
    · exact hInv sid hres
    · cases hb : mapHas (mapDelete s.bookedSlots slotId) sid with
      | false => rfl
      | true =>
        have := mapHas_mapDelete_imp _ _ _ hb
        rw [hInv sid hres] at this
        exact absurd this (by simp)
  | clearReservations =>
    intro sid hres
    simp [applyCalOp, CalendarService.clearReservations, setHas] at hres
  | clearBookings =>
    intro sid _
    simp [applyCalOp, CalendarService.clearBookings, mapHas, mapGet]

theorem mutexInv_foldl (ops : List CalOp) (s : CalendarState) (h : MutexInv s) :
    MutexInv (ops.foldl applyCalOp s) := by
  induction ops generalizing s with
  | nil => exact h
  | cons op rest ih => exact ih _ (mutexInv_applyCalOp s h op)

/-- C5: in every state reachable from the empty calendar by any sequence of
`reserveSlot`, `bookSlot`, `cancelBooking`, `clearReservations` and
`clearBookings` operations, no slot id is simultaneously in the reserved set
and in the booked map. -/
theorem C5_mutual_exclusion (ops : List CalOp) (slotId : String) :
    (setHas (runCalOps ops).reservedSlots slotId &&
      mapHas (runCalOps ops).bookedSlots slotId) = false := by
  have hInv : MutexInv (runCalOps ops) := by
    apply mutexInv_foldl
    intro sid h
    simp [CalendarService.emptyCalendar, setHas] at h
  cases hres : setHas (runCalOps ops).reservedSlots slotId with
  | false => simp
  | true => simp [hInv slotId hres]

/-- A booking record as `createBooking` stores it, with owner `"A"`. -/
def demoBooking : Booking :=
  { id := "b1"
    contactInfo := validContact
    timeSlot := ⟨"2024-01-16_09:00", "2024-01-16", "09:00", "09:30", false, some "A"⟩
    status := BookingStatus.confirmed
    createdAt := "2024-01-16T08:00:00.000Z"
    confirmationId := "CONF000001AAAA" }

/-- A service state holding exactly `demoBooking`, its slot booked by `"A"`. -/
def demoBookedState : BookingState :=
  { calendar := ⟨[], [("2024-01-16_09:00", "A")]⟩
    bookings := [("b1", demoBooking)]
    reservations := [] }

/-- C6: cancelling an existing booking whose owner is `ownerId` with any
different `userId` returns `false` and leaves the whole state (booking
record, booked-slot map, reserved-slot set, reservations) unchanged. -/
theorem C6_cancel_wrong_owner_unchanged (st : BookingState)
    (bookingId userId ownerId : String) (b : Booking)
    (h1 : mapGet st.bookings bookingId = some b)
    (h2 : b.timeSlot.bookedBy = some ownerId) (h3 : userId ≠ ownerId) :
    BookingService.cancelBooking st bookingId userId = (false, st) := by
  have hcond : b.timeSlot.bookedBy ≠ some userId := by
    rw [h2]
    intro hc
    exact h3 (Option.some.inj hc).symm
  simp only [BookingService.cancelBooking, h1]
  rw [if_pos hcond]

/-- C6 witness: owner is `"A"`, caller is `"B"`. -/
theorem C6_cancel_wrong_owner_unchanged_witness :
    BookingService.cancelBooking demoBookedState "b1" "B" = (false, demoBookedState) :=
  C6_cancel_wrong_owner_unchanged demoBookedState "b1" "B" "A" demoBooking
    (by decide) (by decide) (by decide)

/-- C7 counterexample: at a concrete booked state, the first owner cancel
succeeds and the record is retained with status Cancelled, but the second
cancel of the already-cancelled booking returns `true`, not `false` as
claimed (the ownership check reads the retained `timeSlot.bookedBy`, and the
calendar-level result is discarded). -/
theorem C7_counterexample :
    (BookingService.cancelBooking demoBookedState "b1" "A").1 = true ∧
    (BookingService.getBooking
        (BookingService.cancelBooking demoBookedState "b1" "A").2 "b1").map (·.status)
      = some BookingStatus.cancelled ∧
    (BookingService.cancelBooking
        (BookingService.cancelBooking demoBookedState "b1" "A").2 "b1" "A").1 = true := by
  decide

/-- C7 (amended): after a successful owner cancel the record is retained with
status Cancelled, and a second owner cancel of the already-cancelled booking
again returns `true` (leaving the record cancelled). -/
theorem C7_cancel_lifecycle (st : BookingState) (bookingId ownerId : String) (b : Booking)
    (h1 : mapGet st.bookings bookingId = some b)
    (h2 : b.timeSlot.bookedBy = some ownerId) :
    (BookingService.cancelBooking st bookingId ownerId).1 = true ∧
    BookingService.getBooking (BookingService.cancelBooking st bookingId ownerId).2 bookingId
      = some { b with status := BookingStatus.cancelled } ∧
    (BookingService.cancelBooking (BookingService.cancelBooking st bookingId ownerId).2
        bookingId ownerId).1 = true ∧
    BookingService.getBooking
        (BookingService.cancelBooking (BookingService.cancelBooking st bookingId ownerId).2
          bookingId ownerId).2 bookingId
      = some { b with status := BookingStatus.cancelled } := by
  simp [BookingService.cancelBooking, BookingService.getBooking, h1, h2, mapGet_mapSet_self]

/-- C7 witness at the concrete booked state. -/
theorem C7_cancel_lifecycle_witness :
    (BookingService.cancelBooking demoBookedState "b1" "A").1 = true ∧
    BookingService.getBooking (BookingService.cancelBooking demoBookedState "b1" "A").2 "b1"
      = some { demoBooking with status := BookingStatus.cancelled } ∧
    (BookingService.cancelBooking (BookingService.cancelBooking demoBookedState "b1" "A").2
        "b1" "A").1 = true ∧
    BookingService.getBooking
        (BookingService.cancelBooking (BookingService.cancelBooking demoBookedState "b1" "A").2
          "b1" "A").2 "b1"
      = some { demoBooking with status := BookingStatus.cancelled } :=
  C7_cancel_lifecycle demoBookedState "b1" "A" demoBooking (by decide) (by decide)

/-- C1 (code bug): after `reserveSlot(slot, "A")` succeeds, `createBooking`
with a valid contact is rejected with the generic unavailability error for
owner `"A"` (the claim expects success) and for owner `"B"` as well (the
claim expects the reserved-by-another-user error): the slot sits in the
calendar's `reservedSlots`, so the `isSlotAvailable` check in step 2 fires
before the same-owner reservation check can run. -/
theorem C1_reserved_slot_blocks_owner_booking :
    (BookingService.reserveSlot BookingService.emptyState "2024-01-16_09:00" "A" 0).1
      = true ∧
    (BookingService.createBooking
        (BookingService.reserveSlot BookingService.emptyState "2024-01-16_09:00" "A" 0).2
        validContact demoSlot "A" "bk1" "CONF1" "t1").1
      = CreateBookingResult.err "Selected time slot is no longer available" ∧
    (BookingService.createBooking
        (BookingService.reserveSlot BookingService.emptyState "2024-01-16_09:00" "A" 0).2
        validContact demoSlot "B" "bk2" "CONF2" "t1").1
      = CreateBookingResult.err "Selected time slot is no longer available" := by
  decide

/-- C2 (code bug): the scenario returns `(true, false, true, false)` —
`releaseReservation` deletes only the `BookingService` reservation entry and
never removes the slot from the calendar's `reservedSlots`, so the fourth
call (`reserveSlot` by `"B"` after `"A"` released) fails instead of
succeeding. -/
theorem C2_reserve_after_release_fails :
    (let s0 := BookingService.emptyState
     let r1 := BookingService.reserveSlot s0 "2024-01-16_09:00" "A" 0
     let r2 := BookingService.reserveSlot r1.2 "2024-01-16_09:00" "B" 1000
     let r3 := BookingService.releaseReservation r2.2 "2024-01-16_09:00" "A"
     let r4 := BookingService.reserveSlot r3.2 "2024-01-16_09:00" "B" 2000
     (r1.1, r2.1, r3.1, r4.1)) = (true, false, true, false) := by
  decide

/-- C3 (code bug): a second `reserveSlot` by the same owner on a slot holding
that owner's live reservation returns `false` and changes nothing (in
particular the hold's expiry is not refreshed): the slot is in the calendar's
`reservedSlots`, so `isSlotAvailable` fails, and `CalendarService.reserveSlot`
itself also rejects an already-reserved slot. -/
theorem C3_rereserve_same_owner_fails :
    (BookingService.reserveSlot BookingService.emptyState "2024-01-16_09:00" "A" 0).1
      = true ∧
    (BookingService.reserveSlot
        (BookingService.reserveSlot BookingService.emptyState "2024-01-16_09:00" "A" 0).2
        "2024-01-16_09:00" "A" 60000).1 = false ∧
    (BookingService.reserveSlot
        (BookingService.reserveSlot BookingService.emptyState "2024-01-16_09:00" "A" 0).2
        "2024-01-16_09:00" "A" 60000).2
      = (BookingService.reserveSlot BookingService.emptyState "2024-01-16_09:00" "A" 0).2 ∧
    (CalendarService.reserveSlot
        (BookingService.reserveSlot BookingService.emptyState "2024-01-16_09:00" "A" 0).2.calendar
        "2024-01-16_09:00").1 = false := by
  decide

/-- C4 counterexample: `createBooking` with `{name:"J", email:"bad",
phone:"1"}` produces a validation failure with only two errors — the phone
`"1"` passes `validateContactInfo`'s pattern `^\+?[1-9]\d{0,15}$`, so no
invalid-phone error is pushed. -/
theorem C4_counterexample :
    (BookingService.validateContactInfo ⟨"J", "1", "bad"⟩).errors.length = 2 ∧
    BookingService.bsPhoneRegexTest
        (BookingService.stripPhoneSeparators (BookingService.sanitizeString "1")) = true ∧
    (BookingService.createBooking BookingService.emptyState ⟨"J", "1", "bad"⟩ demoSlot
        "A" "bk1" "CONF1" "t1").1
      = CreateBookingResult.err
          "Validation failed: Name must be at least 2 characters long, Please enter a valid email address" := by
  decide

/-- C4 (amended): the call returns ValidationFailed with exactly the
name-too-short and invalid-email errors; the 1-digit phone is accepted by
`BookingService`'s validator, and only the standalone `validatePhone` of
`src/utils/validation.ts` rejects `"1"` (via its format pattern). -/
theorem C4_two_validation_errors :
    BookingService.validateContactInfo ⟨"J", "1", "bad"⟩
      = ⟨false,
         [⟨"name", .REQUIRED_FIELD, "Name must be at least 2 characters long"⟩,
          ⟨"email", .INVALID_EMAIL, "Please enter a valid email address"⟩]⟩ ∧
    Validation.validatePhone "1"
      = some ⟨"phone", .INVALID_PHONE,
          "Please enter a valid phone number (e.g., (123) 456-7890)"⟩ := by
  decide

/-- C9 counterexample: a reservation created at `t0 = 0` with TTL
`d = 300000` still blocks the availability read when the scheduled timeout
callback has not executed; `isSlotAvailable` consults no clock, so this is
the value of the query at every time, including times after `t0 + d` where
the claim requires `true`. -/
theorem C9_counterexample :
    (CalendarService.reserveSlotAt ⟨CalendarService.emptyCalendar, []⟩
        "2024-01-16_09:00" 0 300000).1 = true ∧
    CalendarService.isSlotAvailable
        (CalendarService.reserveSlotAt ⟨CalendarService.emptyCalendar, []⟩
          "2024-01-16_09:00" 0 300000).2.cal "2024-01-16_09:00" = false := by
  decide

/-- C9 (amended): expiry is timer-driven, not read-driven — after a
reservation at `t0` with TTL `d` the slot reads unavailable (at any query
time, since `isSlotAvailable` takes no clock), and it reads available again
exactly once the event loop has executed the scheduled deletion callback,
which is due at `t0 + d`. -/
theorem C9_timer_driven_expiry (slotId : String) (t0 d t : Nat) :
    (CalendarService.reserveSlotAt ⟨CalendarService.emptyCalendar, []⟩ slotId t0 d).1
      = true ∧
    CalendarService.isSlotAvailable
        (CalendarService.reserveSlotAt ⟨CalendarService.emptyCalendar, []⟩ slotId t0 d).2.cal
        slotId = false ∧
    (t0 + d ≤ t →
      CalendarService.isSlotAvailable
        (CalendarService.runTimeoutsThrough
          (CalendarService.reserveSlotAt ⟨CalendarService.emptyCalendar, []⟩ slotId t0 d).2
          t).cal slotId = true) := by
  refine ⟨?_, ?_, ?_⟩
  · simp [CalendarService.reserveSlotAt, CalendarService.reserveSlot,
      CalendarService.emptyCalendar, mapHas, mapGet, setHas]
  · simp [CalendarService.reserveSlotAt, CalendarService.reserveSlot,
      CalendarService.emptyCalendar, CalendarService.isSlotAvailable,
      mapHas, mapGet, setHas, setAdd]
  · intro ht
    simp [CalendarService.reserveSlotAt, CalendarService.reserveSlot,
      CalendarService.emptyCalendar, CalendarService.isSlotAvailable,
      CalendarService.runTimeoutsThrough, CalendarService.reservationTimeoutFire,
      mapHas, mapGet, setHas, setAdd, setDelete, ht]

/-- C9 witness: TTL 300000 starting at 0, event loop run through 300001. -/
theorem C9_timer_driven_expiry_witness :
    CalendarService.isSlotAvailable
        (CalendarService.runTimeoutsThrough
          (CalendarService.reserveSlotAt ⟨CalendarService.emptyCalendar, []⟩
            "2024-01-16_09:00" 0 300000).2 300001).cal "2024-01-16_09:00" = true :=
  (C9_timer_driven_expiry "2024-01-16_09:00" 0 300000 300001).2.2 (by decide)

theorem mem_dailyLoop (s : CalendarState) (date : String) (em i : Nat) :
    ∀ (fuel m0 : Nat) (slot : TimeSlot),
      slot ∈ CalendarService.dailyLoop s date em i fuel m0 →
      ∃ k, m0 + k * i < em ∧ slot = CalendarService.slotForMinutes s date (m0 + k * i) i := by
  intro fuel
  induction fuel with
  | zero =>
    intro m0 slot h
    simp [CalendarService.dailyLoop] at h
  | succ fuel ih =>
    intro m0 slot h
    simp only [CalendarService.dailyLoop] at h
    split_ifs at h with h1 h2
    · simp at h
    · rcases List.mem_cons.1 h with rfl | htail
      · exact ⟨0, by simpa using h1, by simp⟩
      · obtain ⟨k, hk, hs⟩ := ih (m0 + i) slot htail
        have harith : m0 + (k + 1) * i = m0 + i + k * i := by ring
        exact ⟨k + 1, by rw [harith]; exact hk, by rw [harith]; exact hs⟩
    · simp at h

theorem generateDailySlots_eq (s : CalendarState) (date st et : String)
    (i sh sm eh em2 : Nat) (hs : CalendarService.parseClock st = some (sh, sm))
    (he : CalendarService.parseClock et = some (eh, em2)) :
    CalendarService.generateDailySlots s date st et i
      = CalendarService.dailyLoop s date (eh * 60 + em2) i
          (eh * 60 + em2 - (sh * 60 + sm)) (sh * 60 + sm) := by
  unfold CalendarService.generateDailySlots
  rw [hs, he]

theorem date_of_mem_generateDailySlots (s : CalendarState) (date st et : String)
    (i : Nat) (slot : TimeSlot)
    (h : slot ∈ CalendarService.generateDailySlots s date st et i) :
    slot.date = date := by
  unfold CalendarService.generateDailySlots at h
  cases hs : CalendarService.parseClock st with
  | none =>
    rw [hs] at h
    cases he : CalendarService.parseClock et with
    | none => rw [he] at h; simp at h
    | some q => obtain ⟨eh, em2⟩ := q; rw [he] at h; simp at h
  | some p =>
    obtain ⟨sh, sm⟩ := p
    rw [hs] at h
    cases he : CalendarService.parseClock et with
    | none => rw [he] at h; simp at h
    | some q =>
      obtain ⟨eh, em2⟩ := q
      rw [he] at h
      obtain ⟨k, _, rfl⟩ :=
        mem_dailyLoop s date (eh * 60 + em2) i (eh * 60 + em2 - (sh * 60 + sm))
          (sh * 60 + sm) slot h
      rfl

theorem mem_dayLoop_weekday (s : CalendarState) (startTime endTime : String) (i : Nat) :
    ∀ (n : Nat) (cur : Nat × Nat × Nat) (slot : TimeSlot),
      slot ∈ CalendarService.dayLoop s startTime endTime i n cur →
      ∃ day : Nat × Nat × Nat, slot.date = CalendarService.formatDate day ∧
        CalendarService.dayOfWeek day ≠ 0 ∧ CalendarService.dayOfWeek day ≠ 6 := by
  intro n
  induction n with
  | zero =>
    intro cur slot h
    simp [CalendarService.dayLoop] at h
  | succ n ih =>
    intro cur slot h
    simp only [CalendarService.dayLoop] at h
    split_ifs at h with hw
    · exact ih (CalendarService.nextDay cur) slot h
    · simp only [Bool.or_eq_true, beq_iff_eq, not_or] at hw
      rcases List.mem_append.1 h with hd | ht
      · exact ⟨cur, date_of_mem_generateDailySlots s _ startTime endTime i slot hd,
          hw.1, hw.2⟩
      · exact ih (CalendarService.nextDay cur) slot ht

/-- C8: `generateSlots` behaviour — (1) the concrete single-Tuesday example
yields exactly the two available slots 09:00–09:30 and 09:30–10:00; (2) a day
window with `startTime ≥ endTime` yields zero slots; (3) every generated slot
lies on a day that is neither Sunday (0) nor Saturday (6); (4) every slot of
a day partition starts at `startMinutes + k·interval` inside
`[startMinutes, endMinutes)` and ends exactly `interval` minutes later. -/
theorem C8_slot_generation :
    (CalendarService.generateTimeSlots CalendarService.emptyCalendar
        "2024-01-16" "2024-01-16" "09:00" "10:00" 30
      = [⟨"2024-01-16_09:00", "2024-01-16", "09:00", "09:30", true, none⟩,
         ⟨"2024-01-16_09:30", "2024-01-16", "09:30", "10:00", true, none⟩]) ∧
    (∀ (s : CalendarState) (date st et : String) (i sh sm eh em2 : Nat),
      CalendarService.parseClock st = some (sh, sm) →
      CalendarService.parseClock et = some (eh, em2) →
      eh * 60 + em2 ≤ sh * 60 + sm →
      CalendarService.generateDailySlots s date st et i = []) ∧
    (∀ (s : CalendarState) (sd ed st et : String) (i : Nat) (slot : TimeSlot),
      slot ∈ CalendarService.generateTimeSlots s sd ed st et i →
      ∃ day : Nat × Nat × Nat, slot.date = CalendarService.formatDate day ∧
        CalendarService.dayOfWeek day ≠ 0 ∧ CalendarService.dayOfWeek day ≠ 6) ∧
    (∀ (s : CalendarState) (date st et : String) (i sh sm eh em2 : Nat) (slot : TimeSlot),
      CalendarService.parseClock st = some (sh, sm) →
      CalendarService.parseClock et = some (eh, em2) →
      slot ∈ CalendarService.generateDailySlots s date st et i →
      ∃ k : Nat, sh * 60 + sm + k * i < eh * 60 + em2 ∧
        slot.startTime = CalendarService.minutesToTimeString (sh * 60 + sm + k * i) ∧
        slot.endTime = CalendarService.minutesToTimeString (sh * 60 + sm + k * i + i)) := by
  refine ⟨by decide, ?_, ?_, ?_⟩
  · intro s date st et i sh sm eh em2 hs he hle
    rw [generateDailySlots_eq s date st et i sh sm eh em2 hs he,
      Nat.sub_eq_zero_of_le hle]
    rfl
  · intro s sd ed st et i slot h
    unfold CalendarService.generateTimeSlots at h
    cases hsd : CalendarService.parseDate sd with
    | none =>
      rw [hsd] at h
      cases hed : CalendarService.parseDate ed with
      | none => rw [hed] at h; simp at h
      | some q => rw [hed] at h; simp at h
    | some p =>
      rw [hsd] at h
      cases hed : CalendarService.parseDate ed with
      | none => rw [hed] at h; simp at h
      | some q =>
        rw [hed] at h
        simp only at h
        split_ifs at h with hle
        · exact mem_dayLoop_weekday s st et i _ p slot h
        · simp at h
  · intro s date st et i sh sm eh em2 slot hs he h
    rw [generateDailySlots_eq s date st et i sh sm eh em2 hs he] at h
    obtain ⟨k, hk, rfl⟩ :=
      mem_dailyLoop s date (eh * 60 + em2) i (eh * 60 + em2 - (sh * 60 + sm))
        (sh * 60 + sm) slot h
    exact ⟨k, hk, rfl, rfl⟩

/-- C8 witness: the degenerate window 09:00–09:00, a weekday witness for the
generated Tuesday slot, and the partition index of the 09:30 slot. -/
theorem C8_slot_generation_witness :
    CalendarService.generateDailySlots CalendarService.emptyCalendar
        "2024-01-16" "09:00" "09:00" 30 = [] ∧
    (∃ day : Nat × Nat × Nat,
      (⟨"2024-01-16_09:30", "2024-01-16", "09:30", "10:00", true, none⟩ : TimeSlot).date
        = CalendarService.formatDate day ∧
      CalendarService.dayOfWeek day ≠ 0 ∧ CalendarService.dayOfWeek day ≠ 6) ∧
    (∃ k : Nat, 9 * 60 + 0 + k * 30 < 10 * 60 + 0 ∧
      (⟨"2024-01-16_09:30", "2024-01-16", "09:30", "10:00", true, none⟩ : TimeSlot).startTime
        = CalendarService.minutesToTimeString (9 * 60 + 0 + k * 30) ∧
      (⟨"2024-01-16_09:30", "2024-01-16", "09:30", "10:00", true, none⟩ : TimeSlot).endTime
        = CalendarService.minutesToTimeString (9 * 60 + 0 + k * 30 + 30)) :=
  ⟨C8_slot_generation.2.1 CalendarService.emptyCalendar "2024-01-16" "09:00" "09:00" 30
      9 0 9 0 (by decide) (by decide) (by decide),
   C8_slot_generation.2.2.1 CalendarService.emptyCalendar "2024-01-16" "2024-01-16"
      "09:00" "10:00" 30 _ (by decide),
   C8_slot_generation.2.2.2 CalendarService.emptyCalendar "2024-01-16" "09:00" "10:00" 30
      9 0 10 0 _ (by decide) (by decide) (by decide)⟩

/-- C10: `getSlotById` — (a) for an id splitting on `_` into a nonempty date
part and a nonempty numeric `H:M` start-time part, the returned slot carries
`endTime = startMinutes + 30` rendered as `HH:MM`, with no dependence on any
generation interval (the function takes none); (b) an id without both
nonempty parts yields `none`; (c) concretely, a slot generated with a
60-minute interval ends at `10:00`, yet `getSlotById` of its id reports
`09:30`. -/
theorem C10_getSlotById :
    (∀ (s : CalendarState) (slotId : String) (dateL startTimeL : List Char)
        (rest : List (List Char)) (h m : Nat),
      splitOnChar '_' slotId.toList = dateL :: startTimeL :: rest →
      dateL.isEmpty = false → startTimeL.isEmpty = false →
      (∃ a b tl, splitOnChar ':' startTimeL = a :: b :: tl ∧
        jsToNat (String.mk a) = some h ∧ jsToNat (String.mk b) = some m) →
      CalendarService.getSlotById s slotId
        = some ⟨slotId, String.mk dateL, String.mk startTimeL,
            CalendarService.minutesToTimeString (h * 60 + m + 30),
            CalendarService.isSlotAvailable s slotId, mapGet s.bookedSlots slotId⟩) ∧
    (∀ (s : CalendarState) (slotId : String),
      (match splitOnChar '_' slotId.toList with
       | dateL :: startTimeL :: _ => dateL.isEmpty || startTimeL.isEmpty
       | _ => true) = true →
      CalendarService.getSlotById s slotId = none) ∧
    ((CalendarService.generateDailySlots CalendarService.emptyCalendar
        "2024-01-15" "09:00" "11:00" 60).map (·.endTime) = ["10:00", "11:00"] ∧
     (CalendarService.getSlotById CalendarService.emptyCalendar
        "2024-01-15_09:00").map (·.endTime) = some "09:30") := by
  refine ⟨?_, ?_, by decide⟩
  · intro s slotId dateL startTimeL rest h m hsplit hd hst hex
    obtain ⟨a, b, tl, hsp, ha, hb⟩ := hex
    unfold CalendarService.getSlotById
    rw [hsplit]
    simp only [hd, hst, Bool.or_self, if_false, hsp, ha, hb]
    rfl
  · intro s slotId hcond
    unfold CalendarService.getSlotById
    cases hsplit : splitOnChar '_' slotId.toList with
    | nil => rfl
    | cons d rest' =>
      cases rest' with
      | nil => rfl
      | cons st rest'' =>
        rw [hsplit] at hcond
        simp only at hcond
        simp only [hcond, if_true]

/-- C10 witness at the id `2024-01-16_10:30`. -/
theorem C10_getSlotById_witness :
    CalendarService.getSlotById CalendarService.emptyCalendar "2024-01-16_10:30"
      = some ⟨"2024-01-16_10:30", String.mk "2024-01-16".toList,
          String.mk "10:30".toList,
          CalendarService.minutesToTimeString (10 * 60 + 30 + 30),
          CalendarService.isSlotAvailable CalendarService.emptyCalendar "2024-01-16_10:30",
          mapGet CalendarService.emptyCalendar.bookedSlots "2024-01-16_10:30"⟩ :=
  C10_getSlotById.1 CalendarService.emptyCalendar "2024-01-16_10:30"
    "2024-01-16".toList "10:30".toList [] 10 30 (by decide) (by decide) (by decide)
    ⟨"10".toList, "30".toList, [], by decide, by decide, by decide⟩
